import Mathlib

/-!
Shallow embedding of `src/p_tqdm/p_tqdm.py` (the p_tqdm mapping engine) and
proofs about its facade functions.

Modelling conventions:
* A Python iterable is a `PyIterable`: its element stream (a `List`) together
  with a flag recording whether it is an instance of `collections.abc.Sized`
  (so that `len()` works on it).
* The user function of arity N is modelled as `f : List α → β` applied to the
  list of the N positional arguments drawn from the zipped inputs.
* The external collaborators (the pathos pools and tqdm) are modelled from the
  contracts the specification gives them: the ordered pool stream yields
  results strictly in input order, the unordered pool stream yields them in a
  completion order given explicitly as a permutation-of-indices parameter, and
  the progress wrapper passes every item through unchanged while recording the
  bound (`total`) it was given.
* Fallible code returns `Except PyError`.
-/

namespace PTqdm

/-- A Python iterable: its contents and whether it is `Sized` (supports `len`). -/
structure PyIterable (α : Type) where
  data : List α
  sized : Bool
deriving Repr, DecidableEq

/-- Python exceptions that the modelled code can raise. -/
inductive PyError
  /-- `assert` failure (the `mode` check in `_parallel`). -/
  | assertionError (msg : String)
  /-- `min()` of an empty sequence (in `_sequential`). -/
  | valueError
  /-- duplicate keyword argument at a call site. -/
  | typeError
  /-- tqdm rejecting an unrecognized keyword option. -/
  | tqdmKeyError
deriving Repr, DecidableEq

/-- Which pool class `_parallel` constructs: `ProcessPool` or `ThreadPool`. -/
inductive PoolKind
  | processPool
  | threadPool
deriving Repr, DecidableEq

/-- Python `zip(*iterables)`: truncating positional zip of several streams.
`zipN l` has one entry per position, holding the elements of each stream at
that position; its length is the minimum of the streams' lengths. -/
def zipN {α : Type} : List (List α) → List (List α)
  | [] => []
  | [xs] => xs.map (fun x => [x])
  | xs :: rest => List.zipWith (fun x r => x :: r) xs (zipN rest)

/-- Python `list(map(function, *iterables))`: apply `f` at each zipped position. -/
def pythonMap {α β : Type} (f : List α → β) (iterables : List (List α)) : List β :=
  (zipN iterables).map f

/-- Modelled from the spec: the ordered pool stream (`pool.imap`,
`SubmitOrdered`) yields `function` applied at each zipped position, strictly
in input order. -/
def poolImap {α β : Type} (f : List α → β) (iterables : List (List α)) : List β :=
  pythonMap f iterables

/-- Modelled from the spec: the unordered pool stream (`pool.uimap`,
`SubmitUnordered`) yields the same results in completion order; the
nondeterministic completion order is passed in explicitly as a list of
zipped-input indices. -/
def poolUimap {α β : Type} (f : List α → β) (iterables : List (List α))
    (completion : List Nat) : List β :=
  completion.filterMap (fun i => (pythonMap f iterables)[i]?)

/-- The `num_cpus` keyword argument: absent, an `int`, or a `float`.
Python floats are modelled as rationals. -/
inductive NumCpusArg
  | omitted
  | int (n : Int)
  | float (q : Rat)
deriving Repr, DecidableEq

/-- Python 3 `round` on a float: round half to even (banker's rounding). -/
def pyRound (q : Rat) : Int :=
  if q - ⌊q⌋ < 1/2 then ⌊q⌋
  else if 1/2 < q - ⌊q⌋ then ⌊q⌋ + 1
  else if ⌊q⌋ % 2 = 0 then ⌊q⌋ else ⌊q⌋ + 1

/-- The `num_cpus` resolution in `_parallel`:
`None` becomes `cpu_count()`; a `float` becomes `int(round(num_cpus * cpu_count()))`;
anything else (an `int`) is passed through unchanged. -/
def resolveNumCpus (cpuCount : Nat) : NumCpusArg → Int
  | .omitted => cpuCount
  | .int n => n
  | .float q => pyRound (q * cpuCount)

/-- Python `a or b` specialized to the `total` fallback in `_parallel`:
`None` and `0` are falsy, so `total or x` keeps `total` only when it is a
positive number. -/
def pyOr (total : Option Nat) (fallback : Option Nat) : Option Nat :=
  match total with
  | some (n + 1) => some (n + 1)
  | _ => fallback

/-- The `len()` values of the `Sized` inputs, in order
(`[len(iterable) for iterable in iterables if isinstance(iterable, Sized)]`). -/
def sizedLengths {α : Type} (iterables : List (PyIterable α)) : List Nat :=
  (iterables.filter (fun it => it.sized)).map (fun it => it.data.length)

/-- `min(lengths) if lengths else None`. -/
def minOfLengths (lengths : List Nat) : Option Nat :=
  match lengths with
  | [] => none
  | l :: ls => some (ls.foldl min l)

/-- What one run of the `_parallel` generator produces when it succeeds:
the yielded results, the `total` bound handed to tqdm, the resolved worker
count handed to the pool constructor, and which pool class was constructed. -/
structure RunOutcome (β : Type) where
  results : List β
  tqdmTotal : Option Nat
  numWorkers : Int
  pool : PoolKind
deriving Repr, DecidableEq

/-- `_parallel(ordered, function, mode, *iterables, **kwargs)` run to
exhaustion. `cpuCount` is the value of `pathos.helpers.cpu_count()`;
`completion` is the completion order of the unordered pool stream
(ignored by the ordered stream). Mirrors the source order of operations:
resolve `num_cpus`, infer the tqdm length, assert the mode, construct the
pool, then stream results through tqdm (which passes items through
unchanged). -/
def parallelGen {α β : Type} (ordered : Bool) (f : List α → β) (mode : String)
    (iterables : List (PyIterable α)) (num_cpus : NumCpusArg) (total : Option Nat)
    (cpuCount : Nat) (completion : List Nat) : Except PyError (RunOutcome β) :=
  let numCpus := resolveNumCpus cpuCount num_cpus
  let length := pyOr total (minOfLengths (sizedLengths iterables))
  if mode = "parallel" ∨ mode = "threading" then
    let pool := if mode = "parallel" then PoolKind.processPool else PoolKind.threadPool
    let raw :=
      if ordered then poolImap f (iterables.map (fun it => it.data))
      else poolUimap f (iterables.map (fun it => it.data)) completion
    .ok { results := raw, tqdmTotal := length, numWorkers := numCpus, pool := pool }
  else
    .error (.assertionError ("Internal error: recieved unknown mode " ++ mode))

/-- `p_imap`: `_parallel(True, function, "parallel", *iterables, **kwargs)`. -/
def p_imap {α β : Type} (f : List α → β) (iterables : List (PyIterable α))
    (num_cpus : NumCpusArg) (total : Option Nat) (cpuCount : Nat)
    (completion : List Nat) : Except PyError (RunOutcome β) :=
  parallelGen true f "parallel" iterables num_cpus total cpuCount completion

/-- `p_map`: `list(p_imap(...))`; materializing the generator is the identity
on the modelled result list. -/
def p_map {α β : Type} (f : List α → β) (iterables : List (PyIterable α))
    (num_cpus : NumCpusArg) (total : Option Nat) (cpuCount : Nat)
    (completion : List Nat) : Except PyError (RunOutcome β) :=
  p_imap f iterables num_cpus total cpuCount completion

/-- `p_uimap`: `_parallel(False, function, "parallel", *iterables, **kwargs)`. -/
def p_uimap {α β : Type} (f : List α → β) (iterables : List (PyIterable α))
    (num_cpus : NumCpusArg) (total : Option Nat) (cpuCount : Nat)
    (completion : List Nat) : Except PyError (RunOutcome β) :=
  parallelGen false f "parallel" iterables num_cpus total cpuCount completion

/-- `p_umap`: `list(p_uimap(...))`. -/
def p_umap {α β : Type} (f : List α → β) (iterables : List (PyIterable α))
    (num_cpus : NumCpusArg) (total : Option Nat) (cpuCount : Nat)
    (completion : List Nat) : Except PyError (RunOutcome β) :=
  p_uimap f iterables num_cpus total cpuCount completion

/-- `t_imap`: `_parallel(True, function, "threading", *iterables, **kwargs)`. -/
def t_imap {α β : Type} (f : List α → β) (iterables : List (PyIterable α))
    (num_cpus : NumCpusArg) (total : Option Nat) (cpuCount : Nat)
    (completion : List Nat) : Except PyError (RunOutcome β) :=
  parallelGen true f "threading" iterables num_cpus total cpuCount completion

/-- `t_map`: in the source it materializes `p_imap(...)` (the process-pool
ordered generator), not `t_imap(...)`. -/
def t_map {α β : Type} (f : List α → β) (iterables : List (PyIterable α))
    (num_cpus : NumCpusArg) (total : Option Nat) (cpuCount : Nat)
    (completion : List Nat) : Except PyError (RunOutcome β) :=
  p_imap f iterables num_cpus total cpuCount completion

/-- `t_uimap`: `_parallel(False, function, "threading", *iterables, **kwargs)`. -/
def t_uimap {α β : Type} (f : List α → β) (iterables : List (PyIterable α))
    (num_cpus : NumCpusArg) (total : Option Nat) (cpuCount : Nat)
    (completion : List Nat) : Except PyError (RunOutcome β) :=
  parallelGen false f "threading" iterables num_cpus total cpuCount completion

/-- `t_umap`: in the source it materializes `p_uimap(...)` (the process-pool
unordered generator), not `t_uimap(...)`. -/
def t_umap {α β : Type} (f : List α → β) (iterables : List (PyIterable α))
    (num_cpus : NumCpusArg) (total : Option Nat) (cpuCount : Nat)
    (completion : List Nat) : Except PyError (RunOutcome β) :=
  p_uimap f iterables num_cpus total cpuCount completion

/-- Modelled from the spec: the keyword options the progress wrapper (tqdm)
recognizes — the spec's Progress Sink display configuration: description
label, output stream, refresh interval, unit label. -/
def tqdmOptions : List String := ["desc", "file", "mininterval", "unit"]

/-- The call `tqdm(map(function, *iterables), total=length, **kwargs)` in
`_sequential`: Python raises `TypeError` when `kwargs` also binds `total`
(duplicate keyword argument), and tqdm rejects any keyword it does not
recognize. On success it passes the mapped items through unchanged. -/
def tqdmCall {β : Type} (items : List β) (length : Nat) (kwargs : List String) :
    Except PyError (List β × Nat) :=
  if "total" ∈ kwargs then .error .typeError
  else if kwargs.any (fun k => ¬ k ∈ tqdmOptions) then .error .tqdmKeyError
  else .ok (items, length)

/-- `_sequential(function, *iterables, **kwargs)` run to exhaustion:
computes `min(len(iterable) for iterable in iterables if isinstance(iterable, Sized))`
(a `min` of an empty generator raises `ValueError`), then streams
`map(function, *iterables)` through `tqdm(..., total=length, **kwargs)`.
On success it returns the yielded results and the tqdm bound. -/
def sequentialGen {α β : Type} (f : List α → β) (iterables : List (PyIterable α))
    (kwargs : List String) : Except PyError (List β × Nat) :=
  match minOfLengths (sizedLengths iterables) with
  | none => .error .valueError
  | some length =>
      tqdmCall (pythonMap f (iterables.map (fun it => it.data))) length kwargs

/-- `s_imap`: `_sequential(function, *iterables, **kwargs)`. -/
def s_imap {α β : Type} (f : List α → β) (iterables : List (PyIterable α))
    (kwargs : List String) : Except PyError (List β × Nat) :=
  sequentialGen f iterables kwargs

/-- `s_map`: `list(s_imap(...))`. -/
def s_map {α β : Type} (f : List α → β) (iterables : List (PyIterable α))
    (kwargs : List String) : Except PyError (List β × Nat) :=
  s_imap f iterables kwargs

/-- How a run of the `_parallel` generator can end. -/
inductive GenExit
  /-- the consumer drains the generator; the `for` loop exhausts normally. -/
  | exhausted
  /-- the user function raises; the exception propagates out of the loop body. -/
  | userException
  /-- the consumer abandons the generator early; its finalization raises
  `GeneratorExit` at the suspended `yield`. -/
  | abandoned
deriving Repr, DecidableEq

/-- Whether `pool.clear()` executes on each exit path of `_parallel`: in the
source it is the statement after the `for ... yield` loop, with no
`try`/`finally`, so Python reaches it only when the loop exhausts normally —
an exception from the body, or the `GeneratorExit` thrown into an abandoned
generator, propagates past it. -/
def poolClearRuns : GenExit → Bool
  | .exhausted => true
  | .userException => false
  | .abandoned => false

/-! ### Helper lemmas -/

theorem filterMap_getElem_range {β : Type} (xs : List β) :
    (List.range xs.length).filterMap (fun i => xs[i]?) = xs := by
  induction xs with
  | nil => rfl
  | cons a t ih =>
      rw [List.length_cons, List.range_succ_eq_map, List.filterMap_cons]
      simp only [List.getElem?_cons_zero, List.filterMap_map]
      have hfun : ((fun i => (a :: t)[i]?) ∘ Nat.succ) = (fun i => t[i]?) := by
        funext i
        simp
      rw [hfun, ih]

theorem perm_filterMap_getElem {β : Type} (xs : List β) (l : List Nat)
    (h : l.Perm (List.range xs.length)) :
    (l.filterMap (fun i => xs[i]?)).Perm xs := by
  have := h.filterMap (fun i => xs[i]?)
  rwa [filterMap_getElem_range] at this

theorem zipWith_take_right {α γ δ : Type} (f : α → γ → δ) (xs : List α) (ys : List γ) :
    List.zipWith f xs ys = List.zipWith f xs (ys.take xs.length) := by
  induction xs generalizing ys with
  | nil => simp
  | cons a t ih =>
      cases ys with
      | nil => simp
      | cons b u =>
          simp only [List.zipWith_cons_cons, List.length_cons, List.take_succ_cons]
          exact congrArg _ (ih u)

theorem zipN_pair {α : Type} (xs ys : List α) :
    zipN [xs, ys] = List.zipWith (fun a b => [a, b]) xs ys := by
  show List.zipWith (fun x r => x :: r) xs (ys.map (fun y => [y]))
      = List.zipWith (fun a b => [a, b]) xs ys
  rw [List.zipWith_map_right]

theorem length_zipN_pair {α : Type} (xs ys : List α) :
    (zipN [xs, ys]).length = min xs.length ys.length := by
  rw [zipN_pair, List.length_zipWith]

/-- `pyRound` rounds to a nearest integer: the distance to its argument is at
most one half. -/
theorem pyRound_dist_le_half (q : Rat) : |q - pyRound q| ≤ 1/2 := by
  unfold pyRound
  have hfl : (⌊q⌋ : Rat) ≤ q := Int.floor_le q
  have hfu : q < ⌊q⌋ + 1 := Int.lt_floor_add_one q
  split
  · next h =>
      rw [abs_of_nonneg (by linarith)]
      linarith
  · next h =>
      push_neg at h
      split
      · next h2 =>
          rw [abs_of_nonpos (by push_cast; linarith)]
          push_cast
          linarith
      · next h2 =>
          push_neg at h2
          have heq : q - (⌊q⌋ : Rat) = 1/2 := le_antisymm h2 h
          split
          · rw [abs_of_nonneg (by linarith)]; linarith
          · rw [abs_of_nonpos (by push_cast; linarith)]
            push_cast
            linarith

/-- `minOfLengths` on a non-empty list returns its least element. -/
theorem minOfLengths_spec (a : Nat) (ls : List Nat) :
    ∃ m, minOfLengths (a :: ls) = some m ∧ m ∈ a :: ls ∧ ∀ x ∈ a :: ls, m ≤ x := by
  induction ls generalizing a with
  | nil =>
      refine ⟨a, rfl, List.mem_singleton.mpr rfl, ?_⟩
      intro x hx
      rw [List.mem_singleton] at hx
      omega
  | cons b t ih =>
      obtain ⟨m, hm, hmem, hle⟩ := ih (min a b)
      refine ⟨m, ?_, ?_, ?_⟩
      · show some ((b :: t).foldl min a) = some m
        show some (t.foldl min (min a b)) = some m
        exact hm
      · rcases List.mem_cons.mp hmem with h1 | h2
        · rcases Nat.le_total a b with hab | hab
          · rw [h1, Nat.min_eq_left hab]
            exact List.mem_cons_self a (b :: t)
          · rw [h1, Nat.min_eq_right hab]
            exact List.mem_cons_of_mem a (List.mem_cons_self b t)
        · exact List.mem_cons_of_mem a (List.mem_cons_of_mem b h2)
      · intro x hx
        have hminab := hle (min a b) (List.mem_cons_self _ t)
        rcases List.mem_cons.mp hx with h1 | hx2
        · rw [h1]
          exact le_trans hminab (Nat.min_le_left a b)
        · rcases List.mem_cons.mp hx2 with h2 | h3
          · rw [h2]
            exact le_trans hminab (Nat.min_le_right a b)
          · exact hle x (List.mem_cons_of_mem _ h3)

/-- A successful run of `p_imap` (and of any ordered `"parallel"`-mode call to
`_parallel`) with what each field of the outcome is. -/
theorem p_imap_run {α β : Type} (f : List α → β) (iterables : List (PyIterable α))
    (num_cpus : NumCpusArg) (total : Option Nat) (cpuCount : Nat) (completion : List Nat) :
    p_imap f iterables num_cpus total cpuCount completion
      = Except.ok { results := poolImap f (iterables.map (fun it => it.data))
                  , tqdmTotal := pyOr total (minOfLengths (sizedLengths iterables))
                  , numWorkers := resolveNumCpus cpuCount num_cpus
                  , pool := PoolKind.processPool } := rfl

/-- A successful run of `p_uimap`. -/
theorem p_uimap_run {α β : Type} (f : List α → β) (iterables : List (PyIterable α))
    (num_cpus : NumCpusArg) (total : Option Nat) (cpuCount : Nat) (completion : List Nat) :
    p_uimap f iterables num_cpus total cpuCount completion
      = Except.ok { results := poolUimap f (iterables.map (fun it => it.data)) completion
                  , tqdmTotal := pyOr total (minOfLengths (sizedLengths iterables))
                  , numWorkers := resolveNumCpus cpuCount num_cpus
                  , pool := PoolKind.processPool } := rfl

/-- A successful run of `t_imap`. -/
theorem t_imap_run {α β : Type} (f : List α → β) (iterables : List (PyIterable α))
    (num_cpus : NumCpusArg) (total : Option Nat) (cpuCount : Nat) (completion : List Nat) :
    t_imap f iterables num_cpus total cpuCount completion
      = Except.ok { results := poolImap f (iterables.map (fun it => it.data))
                  , tqdmTotal := pyOr total (minOfLengths (sizedLengths iterables))
                  , numWorkers := resolveNumCpus cpuCount num_cpus
                  , pool := PoolKind.threadPool } := rfl

/-- A successful run of `t_uimap`. -/
theorem t_uimap_run {α β : Type} (f : List α → β) (iterables : List (PyIterable α))
    (num_cpus : NumCpusArg) (total : Option Nat) (cpuCount : Nat) (completion : List Nat) :
    t_uimap f iterables num_cpus total cpuCount completion
      = Except.ok { results := poolUimap f (iterables.map (fun it => it.data)) completion
                  , tqdmTotal := pyOr total (minOfLengths (sizedLengths iterables))
                  , numWorkers := resolveNumCpus cpuCount num_cpus
                  , pool := PoolKind.threadPool } := rfl

/-- A run of `_sequential` with at least one `Sized` input and no keyword
arguments succeeds and yields `map(function, *iterables)` with the minimum
sized length as the tqdm bound. -/
theorem sequentialGen_run {α β : Type} (f : List α → β) (iterables : List (PyIterable α))
    (m : Nat) (hm : minOfLengths (sizedLengths iterables) = some m) :
    sequentialGen f iterables []
      = Except.ok (pythonMap f (iterables.map (fun it => it.data)), m) := by
  unfold sequentialGen
  rw [hm]
  rfl

/-! ### Claim theorems -/

/-- C1: for every non-empty list of input sequences and deterministic,
side-effect-free `f`, the parallel ordered map (`p_map` / `p_imap`,
ordered=True) yields exactly `[f x0, f x1, ..., f x(n-1)]` — the plain
sequential application of `f` over the zipped inputs — and agrees with the
repository's own sequential map whenever the latter succeeds. -/
theorem C1_ordered_map_eq_sequential_application {α β : Type} (f : List α → β)
    (iterables : List (PyIterable α)) (num_cpus : NumCpusArg) (total : Option Nat)
    (cpuCount : Nat) (completion : List Nat) (h : iterables ≠ []) :
    ∃ o : RunOutcome β,
      p_map f iterables num_cpus total cpuCount completion = Except.ok o
      ∧ o.results = (zipN (iterables.map (fun it => it.data))).map f
      ∧ ∀ r : List β × Nat, sequentialGen f iterables [] = Except.ok r →
          o.results = r.1 := by
  refine ⟨_, p_imap_run f iterables num_cpus total cpuCount completion, rfl, ?_⟩
  intro r hr
  cases hm : minOfLengths (sizedLengths iterables) with
  | none =>
      unfold sequentialGen at hr
      rw [hm] at hr
      exact absurd hr (by simp)
  | some m =>
      rw [sequentialGen_run f iterables m hm] at hr
      have := (Except.ok.injEq _ _).mp hr
      rw [← this]
      rfl

/-- C1 witness: a concrete run of `p_map` on `[1, 2, 3]`. -/
theorem C1_witness :
    ([PyIterable.mk [1, 2, 3] true] ≠ ([] : List (PyIterable Nat)))
    ∧ ∃ o : RunOutcome Nat,
        p_map (fun l => l.foldl (fun a b => a + b) 0) [PyIterable.mk [1, 2, 3] true]
          NumCpusArg.omitted none 4 [] = Except.ok o
        ∧ o.results = (zipN ([PyIterable.mk [1, 2, 3] true].map (fun it => it.data))).map
            (fun l => l.foldl (fun a b => a + b) 0)
        ∧ ∀ r : List Nat × Nat,
            sequentialGen (fun l => l.foldl (fun a b => a + b) 0)
              [PyIterable.mk [1, 2, 3] true] [] = Except.ok r →
            o.results = r.1 :=
  ⟨by decide, C1_ordered_map_eq_sequential_application _ _ NumCpusArg.omitted none 4 []
    (by decide)⟩

/-- C2: for every list of input sequences and deterministic `f`, the unordered
map (`p_umap` / `p_uimap`, and the threaded `t_uimap`) yields the same multiset
of results as the ordered map on the same inputs, for every completion order of
the pool. -/
theorem C2_unordered_is_permutation_of_ordered {α β : Type} (f : List α → β)
    (iterables : List (PyIterable α)) (num_cpus : NumCpusArg) (total : Option Nat)
    (cpuCount : Nat) (completion : List Nat) (hne : iterables ≠ [])
    (hperm : completion.Perm
      (List.range (pythonMap f (iterables.map (fun it => it.data))).length)) :
    ∃ o u ot ut : RunOutcome β,
      p_imap f iterables num_cpus total cpuCount completion = Except.ok o
      ∧ p_uimap f iterables num_cpus total cpuCount completion = Except.ok u
      ∧ u.results.Perm o.results
      ∧ t_imap f iterables num_cpus total cpuCount completion = Except.ok ot
      ∧ t_uimap f iterables num_cpus total cpuCount completion = Except.ok ut
      ∧ ut.results.Perm ot.results := by
  have hp : (poolUimap f (iterables.map (fun it => it.data)) completion).Perm
      (poolImap f (iterables.map (fun it => it.data))) :=
    perm_filterMap_getElem _ _ hperm
  exact ⟨_, _, _, _,
    p_imap_run f iterables num_cpus total cpuCount completion,
    p_uimap_run f iterables num_cpus total cpuCount completion, hp,
    t_imap_run f iterables num_cpus total cpuCount completion,
    t_uimap_run f iterables num_cpus total cpuCount completion, hp⟩

/-- C2 witness: a concrete unordered run with completion order `[1, 0]`. -/
theorem C2_witness :
    ([PyIterable.mk [10, 20] true] ≠ ([] : List (PyIterable Nat)))
    ∧ ([1, 0].Perm (List.range
        (pythonMap (fun l : List Nat => l.foldl (fun a b => a + b) 0)
          ([PyIterable.mk [10, 20] true].map (fun it => it.data))).length))
    ∧ ∃ o u ot ut : RunOutcome Nat,
        p_imap (fun l => l.foldl (fun a b => a + b) 0) [PyIterable.mk [10, 20] true]
          NumCpusArg.omitted none 4 [1, 0] = Except.ok o
        ∧ p_uimap (fun l => l.foldl (fun a b => a + b) 0) [PyIterable.mk [10, 20] true]
            NumCpusArg.omitted none 4 [1, 0] = Except.ok u
        ∧ u.results.Perm o.results
        ∧ t_imap (fun l => l.foldl (fun a b => a + b) 0) [PyIterable.mk [10, 20] true]
            NumCpusArg.omitted none 4 [1, 0] = Except.ok ot
        ∧ t_uimap (fun l => l.foldl (fun a b => a + b) 0) [PyIterable.mk [10, 20] true]
            NumCpusArg.omitted none 4 [1, 0] = Except.ok ut
        ∧ ut.results.Perm ot.results :=
  ⟨by decide, by decide,
    C2_unordered_is_permutation_of_ordered _ _ NumCpusArg.omitted none 4 [1, 0]
      (by decide) (by decide)⟩

/-- C3: for two input sequences with `xs.length < ys.length`, every map
variant consumes exactly `xs.length` positions from each input (the zip
truncates to the shortest sequence) and yields exactly `xs.length` results. -/
theorem C3_zip_truncates_to_shortest {α β : Type} (f : List α → β) (xs ys : List α)
    (num_cpus : NumCpusArg) (total : Option Nat) (cpuCount : Nat) (completion : List Nat)
    (h : xs.length < ys.length) (hc : completion.Perm (List.range xs.length)) :
    zipN [xs, ys] = List.zipWith (fun a b => [a, b]) xs (ys.take xs.length)
    ∧ (zipN [xs, ys]).length = xs.length
    ∧ (∃ o : RunOutcome β, p_imap f [PyIterable.mk xs true, PyIterable.mk ys true]
          num_cpus total cpuCount completion = Except.ok o ∧ o.results.length = xs.length)
    ∧ (∃ o : RunOutcome β, p_map f [PyIterable.mk xs true, PyIterable.mk ys true]
          num_cpus total cpuCount completion = Except.ok o ∧ o.results.length = xs.length)
    ∧ (∃ o : RunOutcome β, p_uimap f [PyIterable.mk xs true, PyIterable.mk ys true]
          num_cpus total cpuCount completion = Except.ok o ∧ o.results.length = xs.length)
    ∧ (∃ o : RunOutcome β, p_umap f [PyIterable.mk xs true, PyIterable.mk ys true]
          num_cpus total cpuCount completion = Except.ok o ∧ o.results.length = xs.length)
    ∧ (∃ o : RunOutcome β, t_imap f [PyIterable.mk xs true, PyIterable.mk ys true]
          num_cpus total cpuCount completion = Except.ok o ∧ o.results.length = xs.length)
    ∧ (∃ o : RunOutcome β, t_map f [PyIterable.mk xs true, PyIterable.mk ys true]
          num_cpus total cpuCount completion = Except.ok o ∧ o.results.length = xs.length)
    ∧ (∃ o : RunOutcome β, t_uimap f [PyIterable.mk xs true, PyIterable.mk ys true]
          num_cpus total cpuCount completion = Except.ok o ∧ o.results.length = xs.length)
    ∧ (∃ o : RunOutcome β, t_umap f [PyIterable.mk xs true, PyIterable.mk ys true]
          num_cpus total cpuCount completion = Except.ok o ∧ o.results.length = xs.length)
    ∧ (∃ r : List β × Nat, s_imap f [PyIterable.mk xs true, PyIterable.mk ys true] []
          = Except.ok r ∧ r.1.length = xs.length)
    ∧ (∃ r : List β × Nat, s_map f [PyIterable.mk xs true, PyIterable.mk ys true] []
          = Except.ok r ∧ r.1.length = xs.length) := by
  have hzip : zipN [xs, ys] = List.zipWith (fun a b => [a, b]) xs (ys.take xs.length) := by
    rw [zipN_pair]
    exact zipWith_take_right _ xs ys
  have hlen : (zipN [xs, ys]).length = xs.length := by
    rw [length_zipN_pair]
    omega
  have hord : (poolImap f [xs, ys]).length = xs.length := by
    show ((zipN [xs, ys]).map f).length = xs.length
    rw [List.length_map]
    exact hlen
  have hperm2 : completion.Perm (List.range (pythonMap f [xs, ys]).length) := by
    have hl : (pythonMap f [xs, ys]).length = xs.length := hord
    rw [hl]
    exact hc
  have hunord : (poolUimap f [xs, ys] completion).length = xs.length :=
    (perm_filterMap_getElem (pythonMap f [xs, ys]) completion hperm2).length_eq.trans hord
  have hmin : minOfLengths (sizedLengths [PyIterable.mk xs true, PyIterable.mk ys true])
      = some xs.length := by
    show some (min xs.length ys.length) = some xs.length
    rw [Nat.min_eq_left (le_of_lt h)]
  refine ⟨hzip, hlen,
    ⟨_, p_imap_run f _ num_cpus total cpuCount completion, hord⟩,
    ⟨_, p_imap_run f _ num_cpus total cpuCount completion, hord⟩,
    ⟨_, p_uimap_run f _ num_cpus total cpuCount completion, hunord⟩,
    ⟨_, p_uimap_run f _ num_cpus total cpuCount completion, hunord⟩,
    ⟨_, t_imap_run f _ num_cpus total cpuCount completion, hord⟩,
    ⟨_, p_imap_run f _ num_cpus total cpuCount completion, hord⟩,
    ⟨_, t_uimap_run f _ num_cpus total cpuCount completion, hunord⟩,
    ⟨_, p_uimap_run f _ num_cpus total cpuCount completion, hunord⟩,
    ⟨_, sequentialGen_run f _ xs.length hmin, hord⟩,
    ⟨_, sequentialGen_run f _ xs.length hmin, hord⟩⟩

/-- C3 witness: `xs = [1, 2]`, `ys = [3, 4, 5]`, completion order `[1, 0]`. -/
theorem C3_witness :
    ([1, 2] : List Nat).length < ([3, 4, 5] : List Nat).length
    ∧ ([1, 0].Perm (List.range ([1, 2] : List Nat).length))
    ∧ (zipN [[1, 2], [3, 4, 5]]
        = List.zipWith (fun a b => [a, b]) [1, 2] (([3, 4, 5] : List Nat).take 2)
      ∧ (zipN [([1, 2] : List Nat), [3, 4, 5]]).length = 2
      ∧ (∃ o : RunOutcome Nat, p_imap (fun l => l.foldl (fun a b => a + b) 0)
            [PyIterable.mk [1, 2] true, PyIterable.mk [3, 4, 5] true]
            NumCpusArg.omitted none 4 [1, 0] = Except.ok o ∧ o.results.length = 2)) :=
  ⟨by decide, by decide,
    (C3_zip_truncates_to_shortest (fun l => l.foldl (fun a b => a + b) 0) [1, 2] [3, 4, 5]
      NumCpusArg.omitted none 4 [1, 0] (by decide) (by decide)).1,
    (C3_zip_truncates_to_shortest (fun l => l.foldl (fun a b => a + b) 0) [1, 2] [3, 4, 5]
      NumCpusArg.omitted none 4 [1, 0] (by decide) (by decide)).2.1,
    (C3_zip_truncates_to_shortest (fun l => l.foldl (fun a b => a + b) 0) [1, 2] [3, 4, 5]
      NumCpusArg.omitted none 4 [1, 0] (by decide) (by decide)).2.2.1⟩

/-- C4: evaluating the code at a concrete call shows the divergence: `t_map`
(which in the source materializes `p_imap`, not `t_imap`) constructs a
`ProcessPool`, while `t_imap` — the iterator facade it is documented to
materialize — constructs a `ThreadPool`. -/
theorem C4_t_map_constructs_process_pool :
    t_map (fun l : List Nat => l.foldl (fun a b => a + b) 0)
        [PyIterable.mk [1, 2, 3] true] NumCpusArg.omitted none 4 []
      = Except.ok { results := [1, 2, 3], tqdmTotal := some 3, numWorkers := 4
                  , pool := PoolKind.processPool }
    ∧ t_imap (fun l : List Nat => l.foldl (fun a b => a + b) 0)
        [PyIterable.mk [1, 2, 3] true] NumCpusArg.omitted none 4 []
      = Except.ok { results := [1, 2, 3], tqdmTotal := some 3, numWorkers := 4
                  , pool := PoolKind.threadPool }
    ∧ PoolKind.processPool ≠ PoolKind.threadPool :=
  ⟨rfl, rfl, by decide⟩

/-- C5 counterexample: with an explicit `total = 0` the bound handed to tqdm is
not `0` — Python's `total or ...` treats `0` as falsy, so the inferred minimum
sized length (`3`) wins. -/
theorem C5_total_zero_counterexample :
    p_imap (fun l : List Nat => l.foldl (fun a b => a + b) 0)
        [PyIterable.mk [1, 2, 3] true] NumCpusArg.omitted (some 0) 4 []
      = Except.ok { results := [1, 2, 3], tqdmTotal := some 3, numWorkers := 4
                  , pool := PoolKind.processPool }
    ∧ (some 3 : Option Nat) ≠ some 0 :=
  ⟨rfl, by decide⟩

/-- C5 (amended): for every *positive* explicit `total = T` the bound passed to
tqdm is exactly `T`; when `total` is omitted — or equal to `0`, which `total
or ...` treats like an omitted value — the bound is the minimum length among
the sized inputs, and it is unknown (`none`) when no input is sized. -/
theorem C5_total_resolution {α β : Type} (f : List α → β)
    (iterables : List (PyIterable α)) (num_cpus : NumCpusArg) (cpuCount : Nat)
    (completion : List Nat) (T : Nat) (hT : 0 < T) :
    (∃ o : RunOutcome β, p_imap f iterables num_cpus (some T) cpuCount completion
        = Except.ok o ∧ o.tqdmTotal = some T)
    ∧ (∃ o : RunOutcome β, p_imap f iterables num_cpus none cpuCount completion
        = Except.ok o ∧ o.tqdmTotal = minOfLengths (sizedLengths iterables))
    ∧ (∃ o : RunOutcome β, p_imap f iterables num_cpus (some 0) cpuCount completion
        = Except.ok o ∧ o.tqdmTotal = minOfLengths (sizedLengths iterables))
    ∧ (sizedLengths iterables = [] → minOfLengths (sizedLengths iterables) = none)
    ∧ (∀ a ls, sizedLengths iterables = a :: ls →
        ∃ m, minOfLengths (sizedLengths iterables) = some m
          ∧ m ∈ a :: ls ∧ ∀ x ∈ a :: ls, m ≤ x) := by
  refine ⟨⟨_, p_imap_run f iterables num_cpus (some T) cpuCount completion, ?_⟩,
    ⟨_, p_imap_run f iterables num_cpus none cpuCount completion, rfl⟩,
    ⟨_, p_imap_run f iterables num_cpus (some 0) cpuCount completion, rfl⟩, ?_, ?_⟩
  · cases T with
    | zero => omega
    | succ n => rfl
  · intro hs
    rw [hs]
    rfl
  · intro a ls hs
    rw [hs]
    exact minOfLengths_spec a ls

/-- C5 witness: `T = 5` against a 3-element sized input. -/
theorem C5_witness :
    0 < 5
    ∧ (∃ o : RunOutcome Nat, p_imap (fun l : List Nat => l.foldl (fun a b => a + b) 0)
        [PyIterable.mk [1, 2, 3] true] NumCpusArg.omitted (some 5) 4 []
        = Except.ok o ∧ o.tqdmTotal = some 5) :=
  ⟨by decide,
    (C5_total_resolution (fun l : List Nat => l.foldl (fun a b => a + b) 0)
      [PyIterable.mk [1, 2, 3] true] NumCpusArg.omitted 4 [] 5 (by decide)).1⟩

/-- `0.01 * 8 = 0.08` rounds to `0`. -/
theorem resolveNumCpus_hundredth_of_eight :
    resolveNumCpus 8 (NumCpusArg.float (1/100)) = 0 := by
  show pyRound ((1/100 : Rat) * 8) = 0
  have hf : ⌊((1:Rat)/100 * 8)⌋ = 0 := by
    rw [Int.floor_eq_zero_iff, Set.mem_Ico]
    norm_num
  have hcond : ((1:Rat)/100 * 8) - ⌊((1:Rat)/100 * 8)⌋ < 1/2 := by
    rw [hf]
    norm_num
  unfold pyRound
  rw [if_pos hcond]
  exact hf

/-- C6 counterexample: `num_cpus = 0.01` with 8 detected CPUs resolves to
`int(round(0.08)) = 0` workers — there is no minimum of 1. -/
theorem C6_no_minimum_one_counterexample :
    resolveNumCpus 8 (NumCpusArg.float (1/100)) = 0
    ∧ ¬ (1 ≤ resolveNumCpus 8 (NumCpusArg.float (1/100))) :=
  ⟨resolveNumCpus_hundredth_of_eight,
    by rw [resolveNumCpus_hundredth_of_eight]; decide⟩

/-- C6 (amended): an absolute integer `num_cpus = n` resolves to exactly `n`
regardless of the CPU count; a fractional `num_cpus = q` resolves to
`int(round(q * cpu_count()))` — a nearest integer, with *no* minimum of 1, so
it can resolve to 0 — and an omitted `num_cpus` defaults to the detected CPU
count; the resolved value is what `_parallel` hands to the pool constructor. -/
theorem C6_num_cpus_resolution {α β : Type} (f : List α → β)
    (iterables : List (PyIterable α)) (total : Option Nat) (completion : List Nat)
    (cpuCount cpuCount2 : Nat) (n : Int) (q : Rat) :
    resolveNumCpus cpuCount NumCpusArg.omitted = cpuCount
    ∧ resolveNumCpus cpuCount (NumCpusArg.int n) = n
    ∧ resolveNumCpus cpuCount (NumCpusArg.int n) = resolveNumCpus cpuCount2 (NumCpusArg.int n)
    ∧ resolveNumCpus cpuCount (NumCpusArg.float q) = pyRound (q * cpuCount)
    ∧ |q * cpuCount - pyRound (q * cpuCount)| ≤ 1/2
    ∧ (∃ o : RunOutcome β, p_imap f iterables (NumCpusArg.float q) total cpuCount completion
        = Except.ok o ∧ o.numWorkers = pyRound (q * cpuCount))
    ∧ resolveNumCpus 8 (NumCpusArg.float (1/100)) = 0 :=
  ⟨rfl, rfl, rfl, rfl, pyRound_dist_le_half (q * cpuCount),
    ⟨_, p_imap_run f iterables (NumCpusArg.float q) total cpuCount completion, rfl⟩,
    resolveNumCpus_hundredth_of_eight⟩

/-- C7 counterexample: `pool.clear()` is the statement after the yield loop in
`_parallel`, so it does not execute when the consumer abandons the generator
early or when the user function raises. -/
theorem C7_clear_skipped_on_early_exit :
    poolClearRuns GenExit.abandoned = false
    ∧ poolClearRuns GenExit.userException = false :=
  ⟨rfl, rfl⟩

/-- C7 (amended): `_parallel` releases its pool (`pool.clear()`) exactly on
the normal-exhaustion exit path; an exception from the user function or an
abandoning consumer skips the release. -/
theorem C7_clear_runs_only_on_exhaustion :
    ∀ p : GenExit, poolClearRuns p = true ↔ p = GenExit.exhausted := by
  intro p
  cases p <;> decide

/-- C8: when `mode` is not one of the recognized values, running the
`_parallel` generator fails with the assertion error before any pool is
constructed (the outcome carries no pool and no results) and without ever
invoking the user function — the result is the same error for every `f`. -/
theorem C8_invalid_mode_fails_before_dispatch {α β : Type} (ordered : Bool)
    (mode : String) (iterables : List (PyIterable α)) (num_cpus : NumCpusArg)
    (total : Option Nat) (cpuCount : Nat) (completion : List Nat)
    (h : ¬ (mode = "parallel" ∨ mode = "threading")) (f g : List α → β) :
    parallelGen ordered f mode iterables num_cpus total cpuCount completion
      = Except.error
          (PyError.assertionError ("Internal error: recieved unknown mode " ++ mode))
    ∧ parallelGen ordered f mode iterables num_cpus total cpuCount completion
      = parallelGen ordered g mode iterables num_cpus total cpuCount completion := by
  constructor <;> simp [parallelGen, h]

/-- C8 witness: `mode = "bogus"` with a concrete function and input. -/
theorem C8_witness :
    (¬ ("bogus" = "parallel" ∨ "bogus" = "threading"))
    ∧ parallelGen true (fun l : List Nat => l.length) "bogus"
        [PyIterable.mk [1] true] NumCpusArg.omitted none 4 []
      = Except.error
          (PyError.assertionError ("Internal error: recieved unknown mode " ++ "bogus")) :=
  ⟨by decide,
    (C8_invalid_mode_fails_before_dispatch true "bogus" [PyIterable.mk [1] true]
      NumCpusArg.omitted none 4 [] (by decide)
      (fun l : List Nat => l.length) (fun l : List Nat => l.length)).1⟩

/-- C9 counterexample: `_sequential` (`s_imap`) does *not* raise when one of
its inputs is unsized — `min(len(i) for i in iterables if isinstance(i, Sized))`
filters the unsized input out and succeeds over the sized subset. -/
theorem C9_unsized_input_does_not_raise :
    s_imap (fun l : List Nat => l.foldl (fun a b => a + b) 0)
        [PyIterable.mk [1, 2, 3] true, PyIterable.mk [4, 5] false] []
      = Except.ok ([5, 7], 3) := rfl

/-- C9 (amended): `_sequential` raises `ValueError` exactly when *no* input is
sized (`min()` of an empty generator); when at least one input is sized it
computes its total from the sized subset — the same inference the parallel
variant uses — while the parallel variant additionally tolerates the
all-unsized case by passing an unknown total to tqdm. -/
theorem C9_sequential_raises_iff_no_sized {α β : Type} (f : List α → β)
    (iterables : List (PyIterable α)) (cpuCount : Nat) (completion : List Nat) :
    (sizedLengths iterables = [] → s_imap f iterables [] = Except.error PyError.valueError)
    ∧ (∀ a ls, sizedLengths iterables = a :: ls →
        ∃ m, s_imap f iterables []
            = Except.ok (pythonMap f (iterables.map (fun it => it.data)), m)
          ∧ minOfLengths (sizedLengths iterables) = some m)
    ∧ (∃ o : RunOutcome β, p_imap f iterables NumCpusArg.omitted none cpuCount completion
        = Except.ok o ∧ o.tqdmTotal = minOfLengths (sizedLengths iterables)) := by
  refine ⟨?_, ?_, ⟨_, p_imap_run f iterables NumCpusArg.omitted none cpuCount completion, rfl⟩⟩
  · intro hs
    show sequentialGen f iterables [] = Except.error PyError.valueError
    unfold sequentialGen
    rw [hs]
    rfl
  · intro a ls hs
    have hm : minOfLengths (sizedLengths iterables) = some (ls.foldl min a) := by
      rw [hs]
      rfl
    exact ⟨ls.foldl min a, sequentialGen_run f iterables (ls.foldl min a) hm, hm⟩

/-- C9 witness: with no sized input `s_imap` raises `ValueError` while
`p_imap` succeeds with an unknown tqdm total. -/
theorem C9_witness :
    (sizedLengths [PyIterable.mk [7, 8] false] = [])
    ∧ s_imap (fun l : List Nat => l.length) [PyIterable.mk [7, 8] false] []
        = Except.error PyError.valueError
    ∧ (∃ o : RunOutcome Nat, p_imap (fun l : List Nat => l.length)
        [PyIterable.mk [7, 8] false] NumCpusArg.omitted none 4 []
        = Except.ok o ∧ o.tqdmTotal = minOfLengths (sizedLengths [PyIterable.mk [7, 8] false])) :=
  ⟨rfl,
    (C9_sequential_raises_iff_no_sized (fun l : List Nat => l.length)
      [PyIterable.mk [7, 8] false] 4 []).1 rfl,
    (C9_sequential_raises_iff_no_sized (fun l : List Nat => l.length)
      [PyIterable.mk [7, 8] false] 4 []).2.2⟩

/-- C10: `_sequential` forwards all keyword arguments verbatim to tqdm while
supplying its own `total`, so every option the `s_imap`/`s_map` docstrings
advertise makes the run raise instead of being honored: `total` collides with
the engine-supplied `total` (duplicate keyword argument) and `num_cpus` /
`tqdm` are unknown to the progress wrapper. -/
theorem C10_sequential_rejects_documented_kwargs {α β : Type} (f : List α → β)
    (iterables : List (PyIterable α)) (a : Nat) (ls : List Nat)
    (hs : sizedLengths iterables = a :: ls) :
    s_imap f iterables ["total"] = Except.error PyError.typeError
    ∧ s_imap f iterables ["num_cpus"] = Except.error PyError.tqdmKeyError
    ∧ s_imap f iterables ["tqdm"] = Except.error PyError.tqdmKeyError := by
  have hm : minOfLengths (sizedLengths iterables) = some (ls.foldl min a) := by
    rw [hs]
    rfl
  refine ⟨?_, ?_, ?_⟩ <;>
    · show sequentialGen f iterables _ = _
      unfold sequentialGen
      rw [hm]
      rfl

/-- C10 witness: concrete runs of `s_imap` with each documented option. -/
theorem C10_witness :
    (sizedLengths [PyIterable.mk [1] true] = [1])
    ∧ s_imap (fun l : List Nat => l.length) [PyIterable.mk [1] true] ["total"]
        = Except.error PyError.typeError
    ∧ s_imap (fun l : List Nat => l.length) [PyIterable.mk [1] true] ["num_cpus"]
        = Except.error PyError.tqdmKeyError
    ∧ s_imap (fun l : List Nat => l.length) [PyIterable.mk [1] true] ["tqdm"]
        = Except.error PyError.tqdmKeyError :=
  ⟨rfl,
    (C10_sequential_rejects_documented_kwargs (fun l : List Nat => l.length)
      [PyIterable.mk [1] true] 1 [] rfl).1,
    (C10_sequential_rejects_documented_kwargs (fun l : List Nat => l.length)
      [PyIterable.mk [1] true] 1 [] rfl).2.1,
    (C10_sequential_rejects_documented_kwargs (fun l : List Nat => l.length)
      [PyIterable.mk [1] true] 1 [] rfl).2.2⟩

end PTqdm
